import Mathlib

/-!
Verification of the browser-side RPC bootstrap of `aiodesktop`
(`src/aiodesktop/static/bootstrap.js` and its variant in the repository).

The JavaScript `Server` class is embedded shallowly:

* JSON-serializable wire values become the inductive type `JVal`.
* A registered handler (`Fn`) is a function from its argument list to
  `Except JVal (Option JVal)`: `.error e` models the handler throwing or
  rejecting with value `e`; `.ok none` models a handler that returns
  `undefined`, `.ok (some v)` a handler returning `v`.
* The mutable instance fields `_idCounter`, `_pendingReturns`, `_fns` become
  a `ServerState` record threaded explicitly.  Each pending promise's
  `resolve`/`reject` closure pair is identified by a `Nat` token allocated
  at `execute` time; invoking a continuation is recorded as an
  `Event.resolved`/`Event.rejected` carrying that token.  Envelopes handed
  to the channel's `send` are recorded as `Event.sent`.
* Thrown JavaScript values (the code throws template-literal strings;
  handlers may throw anything) are modelled as the `.error` branch of
  `Except JVal _`: a `.error` result means the routine raised and therefore
  performed no state mutation and invoked no continuation beyond the events
  listed.  `console.debug`/`console.error` logging is elided.
* The registry `_fns` is a plain `{}` object, so the read `this._fns[name]`
  consults the `Object.prototype` chain after the own properties: this is
  modelled by `propRead`, which distinguishes the registered entry, an
  inherited `Object.prototype` property, and `undefined`.  The bodies of
  the inherited builtins are JS-runtime code outside this repository, so
  invoking one is recorded as a single marker event and its result is not
  modelled further; the registration path (`expose`) uses `hasOwnProperty`,
  which sees own properties only.
-/

/-- JSON-serializable values exchanged on the wire. -/
inductive JVal where
  | null : JVal
  | bool : Bool → JVal
  | num : Int → JVal
  | str : String → JVal
  | arr : List JVal → JVal
  | obj : List (String × JVal) → JVal

/-- A registered handler: argument list to thrown value or
(possibly-`undefined`) return value. -/
def Fn : Type := List JVal → Except JVal (Option JVal)

/-- One entry of `_pendingReturns`: the call id string together with the
token identifying the promise's `resolve`/`reject` pair. -/
structure PendingEntry where
  id : String
  token : Nat
deriving DecidableEq

/-- The mutable state of one `Server` instance: `_idCounter`,
`_pendingReturns`, `_fns`, plus the allocator for continuation tokens. -/
structure ServerState where
  idCounter : Nat
  nextToken : Nat
  pendingReturns : List PendingEntry
  fns : List (String × Fn)

/-- Wire envelopes (§ the four `type` tags the dispatcher recognises). -/
inductive Envelope where
  | call : String → String → List JVal → Envelope
  | ret : String → JVal → Envelope
  | err : String → JVal → Envelope
  | close : Envelope

/-- Observable effects of one handler run, in temporal order. -/
inductive Event where
  | resolved : Nat → JVal → Event
  | rejected : Nat → JVal → Event
  | sent : Envelope → Event
  | registeredPending : String → Event
  | windowClosed : Event
  | invokedInherited : String → List JVal → Event

/-- Membership test `this._fns.hasOwnProperty(name)` over the registered entries. -/
def hasKey (fns : List (String × Fn)) (name : String) : Bool :=
  fns.any (fun e => e.1 == name)

/-- Own-property portion of the read of `this._fns[name]`: the registered
entries only.  Own properties shadow the prototype, so for a registered
name this is exactly what the full read yields; `propRead` below completes
the read with the `Object.prototype` chain. -/
def lookupFn (fns : List (String × Fn)) (name : String) : Option Fn :=
  (fns.find? (fun e => e.1 == name)).map (fun e => e.2)

/-- The argument of `expose`: either a single `Function` value — carrying
its own `name` property, which is `""` for an anonymous function — or an
object, whose `Object.entries` are listed in insertion order. -/
inductive FnOrFns where
  | fn : String → Fn → FnOrFns
  | fns : List (String × Fn) → FnOrFns

/-- The `forEach` body of `expose`: walk the entries in order, throwing the
`already registered` string at the first name that `hasOwnProperty` reports
taken, keeping the registrations already performed (a throw inside
`forEach` aborts the iteration but rolls nothing back). -/
def exposeList (fns : List (String × Fn)) :
    List (String × Fn) → List (String × Fn) × Option String
  | [] => (fns, none)
  | e :: rest =>
    if hasKey fns e.1 then
      (fns, some ("function '" ++ e.1 ++ "' is already registered"))
    else
      exposeList (fns ++ [e]) rest

/-- Method `Server.expose(fnOrFns)`: a lone function is wrapped into a one-entry
mapping under its own `name` property, then every entry is registered in
order.  Returns the state after the call plus the thrown string, if any. -/
def expose (st : ServerState) (arg : FnOrFns) : ServerState × Option String :=
  let mapping := match arg with
    | .fn name f => [(name, f)]
    | .fns m => m
  let r := exposeList st.fns mapping
  ({ st with fns := r.1 }, r.2)

/-- Method `Server.execute(name, args)`: bump `_idCounter`, take its decimal
string as the call id, synchronously register the pending continuation
(the `Promise` executor runs before the constructor returns), then hand
the `call` envelope to the channel.  The returned promise's token is
`st.nextToken`; the event list preserves the temporal order
register-then-send. -/
def execute (st : ServerState) (name : String) (args : List JVal) :
    ServerState × List Event :=
  let counter := st.idCounter + 1
  let callId := toString counter
  let token := st.nextToken
  let st' := { st with
    idCounter := counter
    nextToken := token + 1
    pendingReturns := st.pendingReturns ++ [⟨callId, token⟩] }
  (st', [Event.registeredPending callId, Event.sent (.call callId name args)])

/-- Helper `Server._popReturn(id)` minus the throw: `findIndex` + `splice`, i.e.
remove the first entry whose id matches and return it with the remainder;
`none` when `findIndex` yields `-1`. -/
def popFirst (id : String) : List PendingEntry →
    Option (PendingEntry × List PendingEntry)
  | [] => none
  | e :: rest =>
    if e.id == id then some (e, rest)
    else match popFirst id rest with
      | none => none
      | some (x, rest') => some (x, e :: rest')

/-- Handler `Server._on_return(id, ret)`: pop the pending entry for `id` and call
its `resolve` with `ret`; `_popReturn` throws `no handler for call #id`
when no entry matches, and nothing catches that throw. -/
def on_return (st : ServerState) (id : String) (ret : JVal) :
    Except JVal (ServerState × List Event) :=
  match popFirst id st.pendingReturns with
  | none => .error (.str ("no handler for call #" ++ id))
  | some (e, rest) =>
      .ok ({ st with pendingReturns := rest }, [Event.resolved e.token ret])

/-- Handler `Server._on_error(id, error)`: pop the pending entry for `id` and call
its `reject` with the carried error; same throw as `_on_return` when no
entry matches. -/
def on_error (st : ServerState) (id : String) (error : JVal) :
    Except JVal (ServerState × List Event) :=
  match popFirst id st.pendingReturns with
  | none => .error (.str ("no handler for call #" ++ id))
  | some (e, rest) =>
      .ok ({ st with pendingReturns := rest }, [Event.rejected e.token error])

/-- The property names a plain object literal `{}` — such as `this._fns`
— inherits from `Object.prototype`: builtin functions plus the
`__proto__` accessor.  A read of `this._fns[name]` at one of these does
not yield `undefined` even when nothing was registered under the name. -/
def objectPrototypeNames : List String :=
  ["constructor", "hasOwnProperty", "isPrototypeOf", "propertyIsEnumerable",
   "toLocaleString", "toString", "valueOf", "__defineGetter__",
   "__defineSetter__", "__lookupGetter__", "__lookupSetter__", "__proto__"]

/-- Outcome of the full property read `this._fns[name]`: an own
(registered) entry, a value inherited from `Object.prototype`, or
`undefined`. -/
inductive PropRead where
  | own : Fn → PropRead
  | inherited : PropRead
  | missing : PropRead

/-- The full read `this._fns[name]` on the plain `{}` registry object: an
own entry shadows everything, otherwise the `Object.prototype` chain is
consulted, otherwise the read yields `undefined`. -/
def propRead (fns : List (String × Fn)) (name : String) : PropRead :=
  match lookupFn fns name with
  | some f => .own f
  | none =>
      if objectPrototypeNames.contains name then .inherited else .missing

/-- Handler `Server._on_call(id, name, args)`: read `this._fns[name]`;
only when the read yields `undefined` — the name neither registered nor
on `Object.prototype` — throw the `is not found` string (listing the
registered names the way the template literal stringifies
`Object.keys`); for a registered handler, run it — a handler throw
propagates uncaught — and on success send a `return` envelope,
normalising an `undefined` result to `null`.  For an unregistered name
inherited from `Object.prototype` the code takes the same call path with
the inherited value: it invokes it with the server as receiver and then
sends a `return` envelope with the builtin's result (a `TypeError` for
the non-callable `__proto__`); the builtin bodies are JS-runtime code
outside this repository, so the model records this branch as the single
`Event.invokedInherited` and does not model the builtin's result. -/
def on_call (st : ServerState) (id : String) (name : String)
    (args : List JVal) : Except JVal (ServerState × List Event) :=
  match propRead st.fns name with
  | .missing =>
      .error (.str ("function '" ++ name ++ "' is not found, " ++
        "registered functions: [" ++
        String.intercalate "," (st.fns.map (fun e => e.1)) ++ "]"))
  | .own f =>
      match f args with
      | .error e => .error e
      | .ok r =>
          .ok (st, [Event.sent (.ret id (r.getD JVal.null))])
  | .inherited =>
      .ok (st, [Event.invokedInherited name args])

/-- The `bootstrap.js` channel `onClose` callback: it only logs
`ws conn close`; the pending table is not visited. -/
def onClose_handler (st : ServerState) : ServerState × List Event :=
  (st, [])

/-- The `part_000` variant `Server._on_abnormal_close(e)`: when the socket
had opened (`_ws_opened_on != null`) and the close was not clean, close the
window; otherwise do nothing.  The pending table is not visited in either
branch. -/
def on_abnormal_close (st : ServerState) (wsOpenedOn : Option Nat)
    (wasClean : Bool) : ServerState × List Event :=
  if wsOpenedOn.isSome && !wasClean then (st, [Event.windowClosed])
  else (st, [])

/-- The outcome of `JSON.parse` + the `msg.type` dispatch of
`_on_ws_message`: the four recognised shapes, or `other` for any parsed
document whose `type` field is none of the four strings. -/
inductive InMsg where
  | ret : String → JVal → InMsg
  | call : String → String → List JVal → InMsg
  | err : String → JVal → InMsg
  | close : InMsg
  | other : JVal → InMsg

/-- Handler `_on_ws_message(e)` (identically the `chan.onMessage` body of
`bootstrap.js`): `JSON.parse` runs first and its exception — modelled as
the `.error` branch of the input — propagates, nothing catches it; a
parsed message is dispatched on `msg.type`, and a message matching none of
the four branches falls through the `if`/`else if` chain with no effect.
`close` runs `_on_close`, which closes the window. -/
def on_ws_message (st : ServerState) (parsed : Except JVal InMsg) :
    Except JVal (ServerState × List Event) :=
  match parsed with
  | .error e => .error e
  | .ok (.ret id v) => on_return st id v
  | .ok (.call id name args) => on_call st id name args
  | .ok (.err id e) => on_error st id e
  | .ok .close => .ok (st, [Event.windowClosed])
  | .ok (.other _) => .ok (st, [])

/-- The fields a freshly constructed `Server` starts with. -/
def initialState : ServerState :=
  { idCounter := 0, nextToken := 0, pendingReturns := [], fns := [] }

/-- C1: two calls issued from an empty pending table get the ids
`idCounter+1` and `idCounter+2` and promise tokens `nextToken` and
`nextToken+1`; delivering the `return` for the second id first resolves
the second promise with that envelope's value and leaves the first entry
pending, and the later `return` for the first id resolves the first
promise with its own value — correlation is by id, not arrival order. -/
theorem out_of_order_returns_correlate_by_id
    (st : ServerState) (n1 n2 : String) (a1 a2 : List JVal) (v1 v2 : JVal)
    (hempty : st.pendingReturns = [])
    (hne : toString (st.idCounter + 1) ≠ toString (st.idCounter + 2)) :
    on_return (execute (execute st n1 a1).1 n2 a2).1
        (toString (st.idCounter + 2)) v2 =
      .ok ({ (execute (execute st n1 a1).1 n2 a2).1 with
              pendingReturns := [⟨toString (st.idCounter + 1), st.nextToken⟩] },
           [Event.resolved (st.nextToken + 1) v2]) ∧
    on_return { (execute (execute st n1 a1).1 n2 a2).1 with
                pendingReturns := [⟨toString (st.idCounter + 1), st.nextToken⟩] }
        (toString (st.idCounter + 1)) v1 =
      .ok ({ (execute (execute st n1 a1).1 n2 a2).1 with pendingReturns := [] },
           [Event.resolved st.nextToken v1]) := by
  have hadd : st.idCounter + 1 + 1 = st.idCounter + 2 := rfl
  have h2 : ((toString (st.idCounter + 1) : String) ==
      toString (st.idCounter + 2)) = false :=
    beq_eq_false_iff_ne.mpr hne
  constructor
  · simp [execute, on_return, popFirst, hempty, hadd, h2]
  · simp [execute, on_return, popFirst, hempty, hadd, h2]

/-- Closed instance of `out_of_order_returns_correlate_by_id` on a fresh
server: ids "1", "2"; return for "2" first. -/
theorem out_of_order_returns_correlate_by_id_witness :
    initialState.pendingReturns = [] ∧
    on_return (execute (execute initialState "f" []).1 "g" []).1 "2"
        (JVal.num 20) =
      .ok ({ (execute (execute initialState "f" []).1 "g" []).1 with
              pendingReturns := [⟨"1", 0⟩] },
           [Event.resolved 1 (JVal.num 20)]) :=
  ⟨rfl,
    (out_of_order_returns_correlate_by_id initialState "f" "g" [] []
      (JVal.num 10) (JVal.num 20) rfl (by decide)).1⟩

/-- C9: `execute` registers the pending continuation strictly before the
`call` envelope reaches the channel: the emitted trace is exactly
register-then-send, the new entry is in the table afterwards, and every
send of this call's envelope in the trace is preceded by the registration
event. -/
theorem pending_registered_before_send
    (st : ServerState) (name : String) (args : List JVal) :
    (execute st name args).2 =
      [Event.registeredPending (toString (st.idCounter + 1)),
       Event.sent (.call (toString (st.idCounter + 1)) name args)] ∧
    (⟨toString (st.idCounter + 1), st.nextToken⟩ : PendingEntry) ∈
      (execute st name args).1.pendingReturns ∧
    ∀ (i j : Nat),
      (execute st name args).2[i]? =
        some (Event.sent (.call (toString (st.idCounter + 1)) name args)) →
      (execute st name args).2[j]? =
        some (Event.registeredPending (toString (st.idCounter + 1))) →
      j < i := by
  refine ⟨rfl, ?_, ?_⟩
  · simp [execute]
  · intro i j hi hj
    rcases i with _ | _ | i <;> rcases j with _ | _ | j <;>
      simp_all [execute]

/-- Closed instance of `pending_registered_before_send` on a fresh server:
the send sits at index 1 of the trace, the registration at index 0. -/
theorem pending_registered_before_send_witness :
    (execute initialState "f" [JVal.num 3]).2[1]? =
      some (Event.sent (.call "1" "f" [JVal.num 3])) ∧ 0 < 1 :=
  ⟨rfl, (pending_registered_before_send initialState "f" [JVal.num 3]).2.2
    1 0 rfl rfl⟩

/-- C3 counterexample: on a fresh server (empty pending table) an inbound
`return` for id "1" makes the handler raise the `no handler` string — the
envelope is not silently ignored. -/
theorem unknown_id_raises_counterexample :
    on_return initialState "1" (JVal.num 5) =
      .error (JVal.str "no handler for call #1") := rfl

/-- C3 amended: an inbound `return`/`error` whose id matches no pending
entry invokes no continuation and mutates nothing, but the handler throws
`no handler for call #id` (an uncaught rejection) instead of logging and
ignoring the condition. -/
theorem unknown_id_throws_no_handler
    (st : ServerState) (id : String) (v e : JVal)
    (h : popFirst id st.pendingReturns = none) :
    on_return st id v = .error (JVal.str ("no handler for call #" ++ id)) ∧
    on_error st id e = .error (JVal.str ("no handler for call #" ++ id)) := by
  constructor <;> simp [on_return, on_error, h]

/-- Closed instance of `unknown_id_throws_no_handler` at a fresh server
and id "9". -/
theorem unknown_id_throws_no_handler_witness :
    popFirst "9" initialState.pendingReturns = none ∧
    on_return initialState "9" JVal.null =
      .error (JVal.str "no handler for call #9") :=
  ⟨rfl, (unknown_id_throws_no_handler initialState "9" JVal.null JVal.null
    rfl).1⟩

/-- A handler that always throws the string "kaboom". -/
def boomFn : Fn := fun _ => .error (JVal.str "kaboom")

/-- A fresh server with the throwing handler registered as "boom". -/
def stBoom : ServerState := { initialState with fns := [("boom", boomFn)] }

/-- C5 counterexample: an inbound `call` to the registered handler "boom",
which throws, makes `_on_call` itself propagate the thrown value; no
`error` envelope carrying the failure is sent back. -/
theorem handler_failure_raises_counterexample :
    on_call stBoom "7" "boom" [] = .error (JVal.str "kaboom") := rfl

/-- C5 amended: when the registered handler of an inbound `call` throws or
rejects, `_on_call` propagates the thrown value out of the
envelope-handling routine unchanged; no `error` envelope is sent. -/
theorem handler_failure_propagates
    (st : ServerState) (id : String) (name : String) (args : List JVal)
    (f : Fn) (e : JVal)
    (hf : lookupFn st.fns name = some f) (he : f args = .error e) :
    on_call st id name args = .error e := by
  simp [on_call, propRead, hf, he]

/-- Closed instance of `handler_failure_propagates` on the "boom"
handler. -/
theorem handler_failure_propagates_witness :
    lookupFn stBoom.fns "boom" = some boomFn ∧
    boomFn [JVal.num 4] = .error (JVal.str "kaboom") ∧
    on_call stBoom "7" "boom" [JVal.num 4] = .error (JVal.str "kaboom") :=
  ⟨rfl, rfl, handler_failure_propagates stBoom "7" "boom" [JVal.num 4]
    boomFn (JVal.str "kaboom") rfl rfl⟩

/-- C6 counterexample: a frame whose payload fails `JSON.parse` makes
`_on_ws_message` propagate the parse exception — the frame is not dropped
silently. -/
theorem bad_json_raises_counterexample :
    on_ws_message initialState (.error (JVal.str "SyntaxError")) =
      .error (JVal.str "SyntaxError") := rfl

/-- C6 amended: a parsed frame whose `type` is none of
call/return/error/close falls through the dispatch with no effect (state
unchanged, nothing delivered, no raise, and also no logging), while a
frame whose payload is not valid JSON makes the message handler propagate
the parse exception instead of dropping the frame. -/
theorem malformed_frame_handling
    (st : ServerState) (j : JVal) (e : JVal) :
    on_ws_message st (.ok (.other j)) = .ok (st, []) ∧
    on_ws_message st (.error e) = .error e :=
  ⟨rfl, rfl⟩

/-- A server with three calls in flight, as in the spec's abnormal-close
scenario. -/
def stThreePending : ServerState :=
  { idCounter := 3, nextToken := 3,
    pendingReturns := [⟨"1", 0⟩, ⟨"2", 1⟩, ⟨"3", 2⟩], fns := [] }

/-- C2 counterexample: with three calls pending, an abnormal close
(socket had opened, `wasClean = false`) only closes the window — the
state comes back unchanged with all three entries still pending and no
`rejected` event; the `bootstrap.js` `onClose` callback does nothing at
all. -/
theorem close_does_not_drain_counterexample :
    on_abnormal_close stThreePending (some 5) false =
      (stThreePending, [Event.windowClosed]) ∧
    stThreePending.pendingReturns ≠ [] ∧
    onClose_handler stThreePending = (stThreePending, []) := by
  refine ⟨rfl, ?_, rfl⟩
  simp [stThreePending]

/-- C2 amended: neither close path touches the Pending Call Table: the
`bootstrap.js` `onClose` callback only logs, and the `part_000`
`_on_abnormal_close` at most closes the window — in every case the table
afterwards equals the table before, and the emitted events contain no
rejection (no pending caller is ever released by a channel close). -/
theorem close_leaves_pending_table_untouched
    (st : ServerState) (wsOpenedOn : Option Nat) (wasClean : Bool) :
    (on_abnormal_close st wsOpenedOn wasClean).1 = st ∧
    ((on_abnormal_close st wsOpenedOn wasClean).2 = [] ∨
      (on_abnormal_close st wsOpenedOn wasClean).2 = [Event.windowClosed]) ∧
    onClose_handler st = (st, []) := by
  unfold on_abnormal_close onClose_handler
  by_cases h : wsOpenedOn.isSome && !wasClean <;> simp [h]

/-- A successful property read implies `hasOwnProperty`. -/
theorem hasKey_of_lookupFn {fns : List (String × Fn)} {n : String} {f : Fn}
    (h : lookupFn fns n = some f) : hasKey fns n = true := by
  unfold lookupFn at h
  cases hf : fns.find? (fun e => e.1 == n) with
  | none => rw [hf] at h; simp at h
  | some e =>
      have hp := List.find?_some hf
      have hm : e ∈ fns := List.mem_of_find?_eq_some hf
      exact List.any_eq_true.mpr ⟨e, hm, by simpa using hp⟩

/-- C7: exposing a second function under an already-registered name throws
the `already registered` string and leaves the whole state — in particular
the binding of that name — exactly as it was. -/
theorem duplicate_expose_fails_first_wins
    (st : ServerState) (n : String) (f1 f2 : Fn)
    (h : lookupFn st.fns n = some f1) :
    expose st (.fn n f2) =
      (st, some ("function '" ++ n ++ "' is already registered")) ∧
    lookupFn (expose st (.fn n f2)).1.fns n = some f1 := by
  have hk : hasKey st.fns n = true := hasKey_of_lookupFn h
  constructor
  · simp [expose, exposeList, hk]
  · simp [expose, exposeList, hk, h]

/-- A handler returning the constant 1, used as the surviving first
registration in witnesses. -/
def fOne : Fn := fun _ => .ok (some (JVal.num 1))

/-- A handler returning the constant 2, used as the rejected second
registration in witnesses. -/
def fTwo : Fn := fun _ => .ok (some (JVal.num 2))

/-- A fresh server with `fOne` already registered under "f". -/
def stF : ServerState := { initialState with fns := [("f", fOne)] }

/-- Closed instance of `duplicate_expose_fails_first_wins`: re-exposing
"f" throws and `fOne` stays bound. -/
theorem duplicate_expose_fails_first_wins_witness :
    lookupFn stF.fns "f" = some fOne ∧
    expose stF (.fn "f" fTwo) =
      (stF, some "function 'f' is already registered") ∧
    lookupFn (expose stF (.fn "f" fTwo)).1.fns "f" = some fOne :=
  ⟨rfl, (duplicate_expose_fails_first_wins stF "f" fOne fTwo rfl).1,
    (duplicate_expose_fails_first_wins stF "f" fOne fTwo rfl).2⟩

/-- Evaluation of `hasOwnProperty` over a concatenation of entry lists. -/
theorem hasKey_append (a b : List (String × Fn)) (n : String) :
    hasKey (a ++ b) n = (hasKey a n || hasKey b n) := by
  simp [hasKey, List.any_append]

/-- The batch-`expose` precondition for the entries before the collision:
each listed name is absent from the registry as it stands when that entry
is reached (no duplicate of an existing name nor of an earlier listed
name). -/
def freshAll : List (String × Fn) → List (String × Fn) → Prop
  | _, [] => True
  | fns, e :: rest => hasKey fns e.1 = false ∧ freshAll (fns ++ [e]) rest

/-- Running the `forEach` over `pre ++ (n, f) :: post`, with every name of
`pre` fresh and `n` colliding, registers exactly `pre`, throws at `n`, and
never reaches `post`. -/
theorem exposeList_stops_at_collision
    (pre : List (String × Fn)) (fns : List (String × Fn))
    (n : String) (f : Fn) (post : List (String × Fn))
    (hfresh : freshAll fns pre) (hcol : hasKey (fns ++ pre) n = true) :
    exposeList fns (pre ++ (n, f) :: post) =
      (fns ++ pre, some ("function '" ++ n ++ "' is already registered")) := by
  induction pre generalizing fns with
  | nil =>
      simp only [List.append_nil] at hcol
      simp [exposeList, hcol]
  | cons e pre ih =>
      obtain ⟨h1, h2⟩ := hfresh
      have hcol' : hasKey ((fns ++ [e]) ++ pre) n = true := by
        simpa [List.append_assoc] using hcol
      have := ih (fns ++ [e]) h2 hcol'
      simp only [List.cons_append, exposeList, h1, Bool.false_eq_true,
        if_false]
      simpa [List.append_assoc] using this

/-- C8: when a batch `expose` hits a name already present in the registry,
every entry listed before the collision is registered and stays registered
(nothing is rolled back), the `already registered` string for the
colliding name is thrown, and no entry listed after the collision is
registered (unless its name was already present anyway). -/
theorem batch_expose_no_rollback
    (st : ServerState) (pre post : List (String × Fn)) (n : String) (f : Fn)
    (hfresh : freshAll st.fns pre) (hcol : hasKey st.fns n = true) :
    (expose st (.fns (pre ++ (n, f) :: post))).1.fns = st.fns ++ pre ∧
    (expose st (.fns (pre ++ (n, f) :: post))).2 =
      some ("function '" ++ n ++ "' is already registered") ∧
    (∀ e ∈ pre,
      hasKey (expose st (.fns (pre ++ (n, f) :: post))).1.fns e.1 = true) ∧
    (∀ e ∈ post, hasKey st.fns e.1 = false → hasKey pre e.1 = false →
      hasKey (expose st (.fns (pre ++ (n, f) :: post))).1.fns e.1 = false) := by
  have hcol' : hasKey (st.fns ++ pre) n = true := by
    rw [hasKey_append, hcol, Bool.true_or]
  have hmain := exposeList_stops_at_collision pre st.fns n f post hfresh hcol'
  refine ⟨?_, ?_, ?_, ?_⟩
  · simp [expose, hmain]
  · simp [expose, hmain]
  · intro e he
    simp only [expose, hmain, hasKey_append]
    have : hasKey pre e.1 = true := List.any_eq_true.mpr ⟨e, he, by simp⟩
    rw [this, Bool.or_true]
  · intro e _ h1 h2
    simp only [expose, hmain, hasKey_append]
    rw [h1, h2]
    rfl

/-- A handler returning 3, listed before the collision in the C8
witness. -/
def fPre : Fn := fun _ => .ok (some (JVal.num 3))

/-- A handler returning 4, listed after the collision in the C8
witness. -/
def fPost : Fn := fun _ => .ok (some (JVal.num 4))

/-- Closed instance of `batch_expose_no_rollback` on
`expose({a: fPre, f: fTwo, b: fPost})` against a registry already holding
"f": "a" is and stays registered, the call throws at "f", and "b" is never
registered. -/
theorem batch_expose_no_rollback_witness :
    freshAll stF.fns [("a", fPre)] ∧
    hasKey stF.fns "f" = true ∧
    (expose stF (.fns ([("a", fPre)] ++ ("f", fTwo) :: [("b", fPost)]))).1.fns
      = stF.fns ++ [("a", fPre)] ∧
    hasKey (expose stF
      (.fns ([("a", fPre)] ++ ("f", fTwo) :: [("b", fPost)]))).1.fns "b"
      = false :=
  ⟨⟨rfl, trivial⟩, rfl,
    (batch_expose_no_rollback stF [("a", fPre)] [("b", fPost)]
      "f" fTwo ⟨rfl, trivial⟩ rfl).1,
    (batch_expose_no_rollback stF [("a", fPre)] [("b", fPost)]
      "f" fTwo ⟨rfl, trivial⟩ rfl).2.2.2 ("b", fPost) (by simp) rfl rfl⟩

/-- Appending a fresh entry makes its handler the one a property read
finds. -/
theorem lookupFn_append_self (fns : List (String × Fn)) (n : String) (f : Fn)
    (h : hasKey fns n = false) :
    lookupFn (fns ++ [(n, f)]) n = some f := by
  induction fns with
  | nil => simp [lookupFn, List.find?]
  | cons e rest ih =>
      simp only [hasKey, List.any_cons, Bool.or_eq_false_iff] at h
      obtain ⟨h1, h2⟩ := h
      simp only [List.cons_append, lookupFn, List.find?, h1]
      exact ih h2

/-- C10: `expose` on a single function value is the one-entry batch under
the function's own `name` property; in particular an anonymous function
(whose `name` is `""`) lands under the empty-string key — the call
succeeds, a read of key `""` finds it — and exposing a second anonymous
function then throws the duplicate-registration string while the first
stays bound. -/
theorem single_fn_registered_under_name_property
    (st : ServerState) (f g : Fn)
    (h : hasKey st.fns "" = false) :
    (∀ (nm : String) (k : Fn),
      expose st (.fn nm k) = expose st (.fns [(nm, k)])) ∧
    (expose st (.fn "" f)).2 = none ∧
    lookupFn (expose st (.fn "" f)).1.fns "" = some f ∧
    (expose (expose st (.fn "" f)).1 (.fn "" g)).2 =
      some "function '' is already registered" ∧
    lookupFn (expose (expose st (.fn "" f)).1 (.fn "" g)).1.fns "" =
      some f := by
  have hstep : (expose st (.fn "" f)).1.fns = st.fns ++ [("", f)] := by
    simp [expose, exposeList, h]
  have hk2 : hasKey (st.fns ++ [("", f)]) "" = true := by
    rw [hasKey_append]
    simp [hasKey]
  have hlook : lookupFn (expose st (.fn "" f)).1.fns "" = some f := by
    rw [hstep]
    exact lookupFn_append_self _ _ _ h
  refine ⟨fun nm k => rfl, ?_, hlook, ?_, ?_⟩
  · simp [expose, exposeList, h]
  · show (exposeList (expose st (.fn "" f)).1.fns [("", g)]).2 = _
    rw [hstep]
    simp [exposeList, hk2]
  · show lookupFn (exposeList (expose st (.fn "" f)).1.fns [("", g)]).1 "" =
      some f
    rw [hstep]
    simp only [exposeList, hk2, if_true]
    exact lookupFn_append_self _ _ _ h

/-- An anonymous handler returning `undefined`, first anonymous exposure
in the C10 witness. -/
def anonA : Fn := fun _ => .ok none

/-- A second anonymous handler, rejected exposure in the C10 witness. -/
def anonB : Fn := fun _ => .ok (some JVal.null)

/-- Closed instance of `single_fn_registered_under_name_property` on a
fresh server and two anonymous functions. -/
theorem single_fn_registered_under_name_property_witness :
    hasKey initialState.fns "" = false ∧
    lookupFn (expose initialState (.fn "" anonA)).1.fns "" = some anonA ∧
    (expose (expose initialState (.fn "" anonA)).1 (.fn "" anonB)).2 =
      some "function '' is already registered" :=
  ⟨rfl,
    (single_fn_registered_under_name_property initialState anonA anonB
      rfl).2.2.1,
    (single_fn_registered_under_name_property initialState anonA anonB
      rfl).2.2.2.1⟩
